import Mathlib

/-!
Shallow embedding of the LoRaMesher monitor-log analysis scripts
(`utilities/analyzeMonitor.py`, with `utilities/analizeMonitorRemake.py` an
almost identical copy).  Every definition below is translated from the
Python source; Python “exceptions absorbed by a caller's bare `except`” are
collapsed to `Option`/sentinel results exactly where the source catches
them, and exceptions that the source does NOT catch are made explicit with
`Except PyErr`.
-/

/-- Uncaught Python exceptions that the analysed code can actually raise. -/
inductive PyErr where
  | typeError
  | attributeError
deriving DecidableEq

/-- `from asyncio.windows_events import NULL`: the absent-value sentinel used
throughout the scripts is the integer 0. -/
def NULL : Int := 0

/-- Value of one character as a digit (Python `int` accepts 0-9, a-z, A-Z,
restricted to the base). -/
def pyDigitVal (base : Nat) (c : Char) : Option Nat :=
  let v? : Option Nat :=
    if '0' ≤ c ∧ c ≤ '9' then some (c.toNat - '0'.toNat)
    else if 'a' ≤ c ∧ c ≤ 'z' then some (c.toNat - 'a'.toNat + 10)
    else if 'A' ≤ c ∧ c ≤ 'Z' then some (c.toNat - 'A'.toNat + 10)
    else none
  match v? with
  | some v => if v < base then some v else none
  | none => none

/-- Accumulate the value of a digit string. -/
def pyDigitsValAux (base : Nat) : List Char → Nat → Option Nat
  | [], acc => some acc
  | c :: cs, acc =>
    match pyDigitVal base c with
    | some d => pyDigitsValAux base cs (acc * base + d)
    | none => none

/-- Value of a non-empty digit string; an empty one is a `ValueError`. -/
def pyDigitsVal (base : Nat) : List Char → Option Nat
  | [] => none
  | c :: cs => pyDigitsValAux base (c :: cs) 0

/-- Python's whitespace stripping for `int` (`str.strip` on both ends). -/
def stripChars (cs : List Char) : List Char :=
  ((cs.dropWhile Char.isWhitespace).reverse.dropWhile Char.isWhitespace).reverse

/-- Python `int(s, base)`: strips surrounding whitespace, then an optional
sign, then (for the bases the scripts use) an optional `0b`/`0x` prefix,
then reads digits of the base.  `none` stands for the `ValueError` every
call site catches.  (CPython additionally allows single underscores between
digits; no token of these logs uses them.) -/
def pyIntOfString (s : String) (base : Nat) : Option Int :=
  let cs := stripChars s.toList
  let sign : Int := match cs with
    | '-' :: _ => -1
    | _ => 1
  let cs₁ := match cs with
    | '+' :: r => r
    | '-' :: r => r
    | r => r
  let cs₂ := match cs₁ with
    | '0' :: p :: r =>
      if (base = 16 ∧ (p = 'x' ∨ p = 'X')) ∨ (base = 2 ∧ (p = 'b' ∨ p = 'B')) then r
      else '0' :: p :: r
    | r => r
  (pyDigitsVal base cs₂).map (fun n => sign * (n : Int))

/-- One decimal digit. -/
def readDigit (c : Char) : Option Nat :=
  if '0' ≤ c ∧ c ≤ '9' then some (c.toNat - '0'.toNat) else none

/-- Read one or two decimal digits, greedily, as `strptime`'s numeric
directives do. -/
def readNum2 : List Char → Option (Nat × List Char)
  | c₁ :: c₂ :: rest =>
    match readDigit c₁, readDigit c₂ with
    | some d₁, some d₂ => some (d₁ * 10 + d₂, rest)
    | some d₁, none => some (d₁, c₂ :: rest)
    | none, _ => none
  | [c₁] => (readDigit c₁).map (fun d => (d, ([] : List Char)))
  | [] => none

/-- Take at most `k` leading decimal digits. -/
def takeDigits : List Char → Nat → List Nat × List Char
  | cs, 0 => ([], cs)
  | [], _ + 1 => ([], [])
  | c :: cs, k + 1 =>
    match readDigit c with
    | some d =>
      let p := takeDigits cs k
      (d :: p.1, p.2)
    | none => ([], c :: cs)

/-- Microseconds denoted by a `%f` digit group (1 to 6 digits, scaled). -/
def fracMicros (ds : List Nat) : Nat :=
  (ds.foldl (fun a d => a * 10 + d) 0) * 10 ^ (6 - ds.length)

/-- `datetime.strptime(s, '%H:%M:%S.%f')`, reduced to the microseconds
elapsed since 00:00:00 of the default date 1900-01-01.  `none` models the
`ValueError` raised on any mismatch (including `second = 60/61`, which the
regular expression admits but the `datetime` constructor rejects, and
unconverted trailing input). -/
def parseTimeOfDay (s : String) : Option Nat :=
  match readNum2 s.toList with
  | none => none
  | some (h, r₁) =>
    if h ≤ 23 then
      match r₁ with
      | ':' :: r₂ =>
        match readNum2 r₂ with
        | none => none
        | some (m, r₃) =>
          if m ≤ 59 then
            match r₃ with
            | ':' :: r₄ =>
              match readNum2 r₄ with
              | none => none
              | some (sec, r₅) =>
                if sec ≤ 59 then
                  match r₅ with
                  | '.' :: r₆ =>
                    let p := takeDigits r₆ 6
                    if p.1 = [] ∨ p.2 ≠ [] then none
                    else some (((h * 60 + m) * 60 + sec) * 1000000 + fracMicros p.1)
                  | _ => none
                else none
            | _ => none
          else none
      | _ => none
    else none

/-- Two-digit zero padding, as `strftime` prints `%H`, `%M`, `%S`. -/
def pad2 (n : Nat) : String :=
  if n < 10 then "0" ++ Nat.repr n else Nat.repr n

/-- Six-digit zero padding, as `strftime` prints `%f`. -/
def pad6 (n : Nat) : String :=
  let s := Nat.repr n
  String.mk (List.replicate (6 - s.length) '0') ++ s

/-- `datetime.strftime('%H:%M:%S.%f')` for a time of day in microseconds. -/
def formatTimeOfDay (us : Nat) : String :=
  pad2 (us / 3600000000) ++ ":" ++ pad2 (us / 60000000 % 60) ++ ":" ++
    pad2 (us / 1000000 % 60) ++ "." ++ pad6 (us % 1000000)

/-- `tryParseDate`: parse with `%H:%M:%S.%f`, re-format with `strftime`,
and drop the last three characters (`s[:-3]`).  `none` is the returned
NULL sentinel. -/
def tryParseDate (date : String) : Option String :=
  (parseTimeOfDay date).map (fun us =>
    let s := (formatTimeOfDay us).toList
    String.mk (s.take (s.length - 3)))

/-- Python `hex`: minimal-width lowercase digits after a `0x` prefix
(`-0x…` for negatives). -/
def pyHex (n : Int) : String :=
  if n < 0 then "-0x" ++ String.mk (Nat.toDigits 16 n.natAbs)
  else "0x" ++ String.mk (Nat.toDigits 16 n.toNat)


/-- `LineList.getNextValue`: find the marker token and return the token
right after it.  `none` covers both failure shapes of the source — marker
absent (Python then returns the int `-1`, and the caller's `int(-1, base)`
raises `TypeError`) and marker in last position (the off-by-one bound
`index + 1 <= len(self)` lets `self[index + 1]` raise `IndexError`); every
caller catches either exception and substitutes NULL. -/
def getNextValue (l : List String) (elem : String) : Option String :=
  match l.findIdx? (fun t => t == elem) with
  | none => none
  | some index => l.get? (index + 1)

/-- `findIsSend`: `lineList.getIndexDefault("send") != -1`. -/
def findIsSend (lineList : List String) : Bool :=
  lineList.contains "send"

/-- `findId`: base-10 integer after `Id:`, NULL on failure. -/
def findId (lineList : List String) : Int :=
  match getNextValue lineList "Id:" with
  | some v => (pyIntOfString v 10).getD NULL
  | none => NULL

/-- `findType`: base-2 integer after `Type:`, NULL on failure. -/
def findType (lineList : List String) : Int :=
  match getNextValue lineList "Type:" with
  | some v => (pyIntOfString v 2).getD NULL
  | none => NULL

/-- `findSize`: base-10 integer after `Size:`, NULL on failure. -/
def findSize (lineList : List String) : Int :=
  match getNextValue lineList "Size:" with
  | some v => (pyIntOfString v 10).getD NULL
  | none => NULL

/-- `findDst`: `hex(int(tok, 16))` after `Dst:`; `none` is NULL. -/
def findDst (lineList : List String) : Option String :=
  match getNextValue lineList "Dst:" with
  | some v => (pyIntOfString v 16).map pyHex
  | none => none

/-- `findSrc`: `hex(int(tok, 16))` after `Src:`; `none` is NULL. -/
def findSrc (lineList : List String) : Option String :=
  match getNextValue lineList "Src:" with
  | some v => (pyIntOfString v 16).map pyHex
  | none => none

/-- `findVia`: `hex(int(tok, 16))` after `Via:`; `none` is NULL. -/
def findVia (lineList : List String) : Option String :=
  match getNextValue lineList "Via:" with
  | some v => (pyIntOfString v 16).map pyHex
  | none => none

/-- `findSeqId`: base-10 integer after `Seq_Id:`, NULL on failure. -/
def findSeqId (lineList : List String) : Int :=
  match getNextValue lineList "Seq_Id:" with
  | some v => (pyIntOfString v 10).getD NULL
  | none => NULL

/-- `findNum`: base-10 integer after `Num:`, NULL on failure. -/
def findNum (lineList : List String) : Int :=
  match getNextValue lineList "Num:" with
  | some v => (pyIntOfString v 10).getD NULL
  | none => NULL

/-- `getNextNum`: base-10 integer after `Queue:`, NULL on failure. -/
def getNextNum (lineList : List String) : Int :=
  match getNextValue lineList "Queue:" with
  | some v => (pyIntOfString v 10).getD NULL
  | none => NULL

/-- `PacketsType.HELLO_P`. -/
def HELLO_P : Int := 4

/-- `PacketsType.DATA_P`. -/
def DATA_P : Int := 2

/-- `isDataPacket`: `(PacketsType.HELLO_P & type) != PacketsType.HELLO_P`
(Python's `&` on ints is two's-complement bitwise and, `Int.land`). -/
def isDataPacket (type : Int) : Bool :=
  decide (Int.land HELLO_P type ≠ HELLO_P)

/-- `isControlPacket`:
`not((HELLO_P & type) == HELLO_P or (DATA_P & type) == DATA_P)`. -/
def isControlPacket (type : Int) : Bool :=
  ! decide (Int.land HELLO_P type = HELLO_P ∨ Int.land DATA_P type = DATA_P)

/-- `headerPacketSize`. -/
def headerPacketSize : Int := 6

/-- `dataPacketSize`. -/
def dataPacketSize : Int := 2

/-- `dataControlPacketSize`. -/
def dataControlPacketSize : Int := 3

/-- `extraHeaderSize`, mirroring the source's sequential accumulation. -/
def extraHeaderSize (type : Int) : Int :=
  let extraSize := headerPacketSize
  let extraSize := if isDataPacket type then extraSize + dataPacketSize else extraSize
  let extraSize := if isControlPacket type then extraSize + dataControlPacketSize else extraSize
  extraSize


/-- A stored packet record (the `Packet.__dict__` that the node lists keep).
Conditionally present attributes (`via`, `seq_id`, `num`) are outer
`Option`s — `none` means the attribute was never added; an inner `none`
(or an `Int` equal to `NULL`) is the NULL sentinel stored as the value.
Python's `dict` equality on two such records coincides with structural
equality of this type. -/
structure Packet where
  id : Int
  deviceId : Option String
  time : Option String
  type : Int
  source : Option String
  destination : Option String
  payloadSize : Int
  packetSize : Int
  isSend : String
  via : Option (Option String) := none
  seq_id : Option Int := none
  num : Option Int := none
deriving DecidableEq

/-- A Python scalar as it flows through `Packet.__eq__`: the NULL sentinel
int, or a `datetime` reduced to microseconds since 1900-01-01 00:00:00. -/
inductive PyScalar where
  | int (n : Int)
  | datetime (us : Int)
deriving DecidableEq

/-- `selfTime - timedelta(microseconds=d)`: defined on datetimes; on the
int sentinel Python raises `TypeError` (`int - timedelta` is unsupported). -/
def pySubMicros : PyScalar → Int → Except PyErr PyScalar
  | .datetime a, d => .ok (.datetime (a - d))
  | .int _, _ => .error .typeError

/-- `selfTime + timedelta(microseconds=d)`: same typing rule as above. -/
def pyAddMicros : PyScalar → Int → Except PyErr PyScalar
  | .datetime a, d => .ok (.datetime (a + d))
  | .int _, _ => .error .typeError

/-- Python `<=` on these scalars: ordered within a type, `TypeError` when a
datetime meets an int. -/
def pyLe : PyScalar → PyScalar → Except PyErr Bool
  | .int a, .int b => .ok (decide (a ≤ b))
  | .datetime a, .datetime b => .ok (decide (a ≤ b))
  | _, _ => .error .typeError

/-- Python `>=` on these scalars, same typing rule. -/
def pyGe : PyScalar → PyScalar → Except PyErr Bool
  | .int a, .int b => .ok (decide (b ≤ a))
  | .datetime a, .datetime b => .ok (decide (b ≤ a))
  | _, _ => .error .typeError

/-- `tryParseDateTime` applied to a stored `time` field (a string, or the
NULL sentinel when parsing had already failed at ingestion).  `strptime`
raises on the int 0 as well as on a malformed string; the bare `except`
turns either into NULL. -/
def tryParseDateTimeStr (t : Option String) : PyScalar :=
  match t with
  | some s =>
    match parseTimeOfDay s with
    | some us => .datetime (us : Int)
    | none => .int NULL
  | none => .int NULL

/-- `tryParseDateTime(other)` as called in `Packet.__eq__`: the argument is
the other `Packet` object itself (not `other.time`), so `strptime` raises
`TypeError`, the bare `except` catches it, and NULL is returned. -/
def tryParseDateTimePacketArg (_other : Packet) : PyScalar :=
  .int NULL

/-- `Packet.__eq__(self, other)` for two `Packet` operands, line by line:
parse `self.time`, build the ±200 µs bounds, parse `other` (the object,
not its time string), then evaluate the short-circuit `and` chain.  The
result is `Except` because none of these comparisons sits in a `try`. -/
def packetEq (self other : Packet) : Except PyErr Bool := do
  let selfTime := tryParseDateTimeStr self.time
  let minTime ← pySubMicros selfTime 200
  let maxTime ← pyAddMicros selfTime 200
  let othersTime := tryParseDateTimePacketArg other
  let b₁ ← pyLe minTime othersTime
  if b₁ then do
    let b₂ ← pyGe maxTime othersTime
    if b₂ then
      pure (decide (self.type = other.type) && decide (self.source = other.source) &&
        decide (self.destination = other.destination) &&
        decide (self.payloadSize = other.payloadSize) &&
        decide (self.packetSize = other.packetSize))
    else pure false
  else pure false

/-- Result of `Node.createPacketAndSave` on one tokenized line: the packet
appended to the node's lists (if any), the `printError` diagnostic
`(fileName, lineNum)` (if any), and the boolean the method returns. -/
structure CreateResult where
  stored : Option Packet
  diag : Option (String × Nat)
  returned : Bool
deriving DecidableEq

/-- `Node.createPacketAndSave(self, line, lineNum)`; `line` is the
whitespace-split token list, `address` the node's address field.  The
mandatory-field check is `NULL in (date, typeP)`: `0 == date` can hold only
when `date` is the NULL sentinel itself (a string never equals 0), and
`0 == typeP` holds both when the type failed to parse and when it parsed
to the all-zero bitmask. -/
def createPacketAndSave (fileName : String) (address : Option String)
    (line : List String) (lineNum : Nat) : CreateResult :=
  let lineList := line
  let date := tryParseDate (line.headD "")
  let typeP := findType lineList
  let isSend := findIsSend lineList
  let size := findSize lineList
  let src := findSrc lineList
  let dst := findDst lineList
  let id := findId lineList
  if date = none ∨ typeP = NULL then
    { stored := none, diag := some (fileName, lineNum), returned := false }
  else
    let packet : Packet :=
      { id := id, deviceId := address, time := date, type := typeP,
        source := src, destination := dst,
        payloadSize := size - extraHeaderSize typeP, packetSize := size,
        isSend := if isSend then "True" else "False",
        via := if isDataPacket typeP then some (findVia lineList) else none,
        seq_id := if isControlPacket typeP then some (findSeqId lineList) else none,
        num := if isControlPacket typeP then some (findNum lineList) else none }
    { stored := some packet, diag := none, returned := true }

/-- The token list of the spec's scenario line
`12:00:00.000000 > Packet send Type: 00000010 Size: 20 Src: 0x0A Dst: 0x0B Id: 7`,
as Python's `line.split(" ")` produces it. -/
def sendLineTokens : List String :=
  ["12:00:00.000000", ">", "Packet", "send", "Type:", "00000010", "Size:", "20",
   "Src:", "0x0A", "Dst:", "0x0B", "Id:", "7"]

/-- The packet record the scripts actually store for `sendLineTokens`. -/
def sendLinePacket : Packet :=
  { id := 7
    deviceId := some "0A"
    time := some "12:00:00.000"
    type := 2
    source := some "0xa"
    destination := some "0xb"
    payloadSize := 12
    packetSize := 20
    isSend := "True"
    via := some none }


/-- Whether `sub` occurs at the head of `l`. -/
def startsWithChars : List Char → List Char → Bool
  | _, [] => true
  | [], _ :: _ => false
  | a :: as, b :: bs => a = b && startsWithChars as bs

/-- Whether `sub` occurs anywhere in `l`. -/
def hasSubChars : List Char → List Char → Bool
  | l, sub =>
    match l with
    | [] => startsWithChars [] sub
    | _ :: t => startsWithChars l sub || hasSubChars t sub

/-- Python's `needle in haystack` on strings: substring containment. -/
def pyInStr (needle haystack : String) : Bool :=
  hasSubChars haystack.toList needle.toList

/-- Python `line.split(" ")`: split at every single space, keeping empty
pieces. -/
def splitOnSpaceAux : List Char → List Char → List (List Char)
  | [], acc => [acc.reverse]
  | c :: cs, acc =>
    if c = ' ' then acc.reverse :: splitOnSpaceAux cs []
    else splitOnSpaceAux cs (c :: acc)

/-- `line.split(" ")` as a list of strings. -/
def pySplit (s : String) : List String :=
  (splitOnSpaceAux s.toList []).map String.mk


/-- One `PacketList` record: `(packetQueueOrder, tryParseDate result, queue
length)`; `time = none` and `length = NULL` are stored sentinels. -/
structure PacketList where
  id : Nat
  time : Option String
  length : Int
deriving DecidableEq

/-- One `PError` record: `(node address, tryParseDate result)`. -/
structure PError where
  deviceId : Option String
  time : Option String
deriving DecidableEq

/-- The mutable per-node state that `Node.getPackets` builds, plus the
diagnostics `printError` prints (each is a `(fileName, lineNum)` pair). -/
structure NodeState where
  allPacketsNum : Nat
  rxPackets : List Packet
  txPackets : List Packet
  allPackets : List Packet
  allErrors : List PError
  packetQueueLength : List PacketList
  packetQueueOrder : Nat
  diagnostics : List (String × Nat)
deriving DecidableEq

/-- The state of a freshly constructed `Node`. -/
def initialNodeState : NodeState :=
  { allPacketsNum := 0, rxPackets := [], txPackets := [], allPackets := [],
    allErrors := [], packetQueueLength := [], packetQueueOrder := 0,
    diagnostics := [] }

/-- `Node.addPacketToLists`. -/
def addPacketToLists (st : NodeState) (p : Packet) (isSend : Bool) : NodeState :=
  let st₁ :=
    if isSend then { st with txPackets := st.txPackets ++ [p] }
    else { st with rxPackets := st.rxPackets ++ [p] }
  { st₁ with allPackets := st₁.allPackets ++ [p] }

/-- The state effect of `Node.createPacketAndSave`: on the NULL check the
record is dropped and `printError` fires; otherwise the packet joins the
send/receive and combined lists. -/
def createPacketAndSaveS (fileName : String) (address : Option String)
    (st : NodeState) (line : List String) (lineNum : Nat) : NodeState :=
  let r := createPacketAndSave fileName address line lineNum
  let st₁ :=
    match r.diag with
    | some d => { st with diagnostics := st.diagnostics ++ [d] }
    | none => st
  match r.stored with
  | some p => addPacketToLists st₁ p (findIsSend line)
  | none => st₁

/-- `Node.addPacketQueue`: note there is no early return — after the
`printError` diagnostic the `PacketList` record is built and appended all
the same.  The check `NULL in (date, numToSend)` also fires for a genuine
parsed queue length of 0, which is indistinguishable from the sentinel. -/
def addPacketQueue (fileName : String) (st : NodeState) (line : List String)
    (packetQueueOrder : Nat) (lineNum : Nat) : NodeState :=
  let date := tryParseDate (line.headD "")
  let numToSend := getNextNum line
  let st₁ :=
    if date = none ∨ numToSend = NULL then
      { st with diagnostics := st.diagnostics ++ [(fileName, lineNum)] }
    else st
  { st₁ with packetQueueLength :=
      st₁.packetQueueLength ++ [{ id := packetQueueOrder, time := date, length := numToSend }] }

/-- `Node.createErrorAndSave`. -/
def createErrorAndSave (address : Option String) (st : NodeState)
    (line : List String) : NodeState :=
  let date := tryParseDate (line.headD "")
  { st with allErrors := st.allErrors ++ [{ deviceId := address, time := date }] }

/-- The body of `Node.getPackets` for one line of the file (the
`bytes(line, 'utf-8').decode('utf-8')` round-trip never fails on a `str`
and is omitted).  A line containing the receive counter marker only bumps
`allPacketsNum` and `continue`s; otherwise each marker test is applied in
order, and one line may fire several of them. -/
def processLine (fileName : String) (address : Option String)
    (st : NodeState) (index : Nat) (line : String) : NodeState :=
  let listLine := pySplit line
  if pyInStr "Receiving LoRa packet" line then
    { st with allPacketsNum := st.allPacketsNum + 1 }
  else
    let st₁ :=
      if pyInStr "> Packet " line then createPacketAndSaveS fileName address st listLine index
      else st
    let st₂ :=
      if pyInStr "> E:" line then createErrorAndSave address st₁ listLine
      else st₁
    if pyInStr "Size of Send Packets Queue:" line then
      { (addPacketQueue fileName st₂ listLine st₂.packetQueueOrder index) with
          packetQueueOrder := st₂.packetQueueOrder + 1 }
    else st₂

/-- The enumerated loop of `Node.getPackets`, from a given state and line
index. -/
def getPacketsAux (fileName : String) (address : Option String) :
    NodeState → Nat → List String → NodeState
  | st, _, [] => st
  | st, index, line :: rest =>
    getPacketsAux fileName address (processLine fileName address st index line) (index + 1) rest

/-- `Node.getPackets` over the list of lines of the node's file. -/
def getPackets (fileName : String) (address : Option String)
    (lines : List String) : NodeState :=
  getPacketsAux fileName address initialNodeState 0 lines

/-- The receipt-window test of `showPlot`'s matching loop, times in µs:
`previousTime <= packetI["time"] or maxTime >= packetI["time"]` with
`maxTime = previousTime + timedelta(microseconds=100)`. -/
def receiptWithinWindow (previousTime tOther : Int) : Bool :=
  decide (previousTime ≤ tOther) || decide (previousTime + 100 ≥ tOther)

/-- The window predicate in the words of the specification:
`t - tolerance <= t_other OR t + tolerance >= t_other`. -/
def specOrWindow (t tolerance tOther : Int) : Bool :=
  decide (t - tolerance ≤ tOther) || decide (t + tolerance ≥ tOther)

/-- The two-sided AND-bounded window the specification says this is NOT. -/
def specAndWindow (t tolerance tOther : Int) : Bool :=
  decide (t - tolerance ≤ tOther) && decide (t + tolerance ≥ tOther)

/-- What `prevTime` may hold inside `plotPacketSendQueue`'s inner loop: the
initial empty string, a stored time string, the int NULL sentinel copied
from an unparsed sample, or an (adjusted) datetime in microseconds since
1900-01-01 00:00:00. -/
inductive QPrev where
  | pystr (s : String)
  | pyint0
  | dt (us : Nat)
deriving DecidableEq

/-- Loop state of `plotPacketSendQueue` for one node: the day counter, the
`prevTime` variable, and the points handed to `ax.plot`. -/
structure QPlotState where
  dateDay : Nat
  prevTime : QPrev
  points : List (Nat × Int)
deriving DecidableEq

/-- `datetime(year=1900, month=1, day=1, hour=21, minute=25)` as
microseconds of day. -/
def queueCutoffUs : Nat := (21 * 3600 + 25 * 60) * 1000000

/-- `.hour` of a datetime given in microseconds since 1900-01-01. -/
def dtHour (us : Nat) : Nat := us / 3600000000 % 24

/-- One iteration of `plotPacketSendQueue`'s inner loop over a node's
`packetQueueLength`.  The first iteration copies the raw `time` field into
`prevTime` before parsing; a parse that leaves NULL makes the cutoff
comparison `NULL > datetime(...)` raise `TypeError`; a sample after 21:25
is skipped by `continue`; the rollover test `queueEl.time.hour == 0 and
prevTime.hour == 23` raises `AttributeError` whenever `prevTime` still
holds a string (or the int sentinel) rather than a datetime. -/
def plotQueueStep (st : QPlotState) (queueEl : PacketList) : Except PyErr QPlotState :=
  let prev₀ :=
    if st.prevTime = QPrev.pystr "" then
      match queueEl.time with
      | some s => QPrev.pystr s
      | none => QPrev.pyint0
    else st.prevTime
  match queueEl.time.bind parseTimeOfDay with
  | none => .error .typeError
  | some tUs =>
    if queueCutoffUs < tUs then
      .ok { st with prevTime := prev₀ }
    else
      let rollover? : Except PyErr Bool :=
        if dtHour tUs = 0 then
          match prev₀ with
          | .dt pus => .ok (decide (dtHour pus = 23))
          | _ => .error .attributeError
        else .ok false
      match rollover? with
      | .error e => .error e
      | .ok rollover =>
        let dateDay := if rollover then st.dateDay + 1 else st.dateDay
        let adjusted := dateDay * 86400000000 + tUs
        .ok { dateDay := dateDay, prevTime := QPrev.dt adjusted,
              points := st.points ++ [(adjusted, queueEl.length)] }

/-- The whole inner loop of `plotPacketSendQueue` for one node (day counter
0, `prevTime = ""` at entry). -/
def plotPacketSendQueueNode (samples : List PacketList) : Except PyErr QPlotState :=
  samples.foldlM plotQueueStep { dateDay := 0, prevTime := QPrev.pystr "", points := [] }

/-- The scalar statistics `printGeneralInfo` prints. -/
structure GeneralInfo where
  numberOfNodes : Nat
  num_all_sent : Nat
  num_all_received : Nat
  sizeOfAllSentInBytes : Int
  sizeOfAllReceivedInBytes : Int
  numAllPacketsRx : Int
  lostPackets : Int
  allBytesRx : Int
  lostBytes : Int
  totalLoss : Rat

/-- `printGeneralInfo` over the per-node results.  Note Python would raise
`ZeroDivisionError` in the `Total Loss` line when `numAllPacketsRx` is 0;
`Rat` division instead yields 0 there, and the claims about `totalLoss`
are guarded by `0 < numAllPacketsRx`. -/
def printGeneralInfo (nodes : List NodeState) : GeneralInfo :=
  let numberOfNodes := nodes.length
  let allPacketsReceived := nodes.flatMap (fun n => n.rxPackets)
  let allPacketsSended := nodes.flatMap (fun n => n.txPackets)
  let num_all_sent := allPacketsSended.length
  let num_all_received := allPacketsReceived.length
  let sizeOfAllSentInBytes := (allPacketsSended.map (fun p => p.packetSize)).sum
  let sizeOfAllReceivedInBytes := (allPacketsReceived.map (fun p => p.packetSize)).sum
  let numAllPacketsRx : Int := (num_all_sent : Int) * ((numberOfNodes : Int) - 1)
  let lostPackets := numAllPacketsRx - (num_all_received : Int)
  let allBytesRx := sizeOfAllSentInBytes * ((numberOfNodes : Int) - 1)
  let lostBytes := allBytesRx - sizeOfAllReceivedInBytes
  let totalLoss : Rat := ((num_all_received : Rat) / (numAllPacketsRx : Rat) - 1) * 100
  { numberOfNodes := numberOfNodes, num_all_sent := num_all_sent,
    num_all_received := num_all_received,
    sizeOfAllSentInBytes := sizeOfAllSentInBytes,
    sizeOfAllReceivedInBytes := sizeOfAllReceivedInBytes,
    numAllPacketsRx := numAllPacketsRx, lostPackets := lostPackets,
    allBytesRx := allBytesRx, lostBytes := lostBytes, totalLoss := totalLoss }

/-- The pairs examined and matched by `identifySamePacketAndSetSameId`:
for the element at each position, the inner loop runs over the slice
`allPackets[index:]` — exactly the suffix starting at that element — and
tests `packet == packetI`.  The list elements are `__dict__` snapshots, so
this `==` is Python dict equality, i.e. structural equality of `Packet`.
(The two assignments inside the match are no-ops: they copy `packet["id"]`
onto records already known to be equal to `packet`.) -/
def matchedPairs : List Packet → List (Packet × Packet)
  | [] => []
  | p :: rest =>
    (((p :: rest).filter (fun q => p == q)).map (fun q => (p, q))) ++ matchedPairs rest

/-- A node state holding exactly one sent packet, for concrete statistics. -/
def nodeWithOneTx : NodeState :=
  { initialNodeState with txPackets := [sendLinePacket], allPackets := [sendLinePacket] }

/-- The token list of the malformed queue line
`bad Size of Send Packets Queue: oops`. -/
def badQueueTokens : List String :=
  ["bad", "Size", "of", "Send", "Packets", "Queue:", "oops"]

/-- A second packet record, differing from `sendLinePacket`. -/
def pktB : Packet :=
  { sendLinePacket with id := 9, time := some "12:00:01.000" }

/-- The scenario line with an all-zero `Type:` bitmask. -/
def zeroTypeTokens : List String :=
  ["12:00:00.000000", ">", "Packet", "send", "Type:", "00000000", "Size:", "20",
   "Src:", "0x0A", "Dst:", "0x0B", "Id:", "7"]

/-- The scenario line with the `Type:` field removed. -/
def missingTypeTokens : List String :=
  ["12:00:00.000000", ">", "Packet", "send", "Size:", "20",
   "Src:", "0x0A", "Dst:", "0x0B", "Id:", "7"]

/-- Claim C1: the claim says `p == q` holds exactly when the parsed times
are within the 200 µs tolerance and type/source/destination/payloadSize/
packetSize agree.  In fact `Packet.__eq__` passes the other packet OBJECT
(not its time string) to `tryParseDateTime`, so `othersTime` is always the
int sentinel NULL, and the bound comparison `minTime <= othersTime`
(datetime against int) raises `TypeError`; when `self.time` itself fails
to parse, `selfTime - timedelta(...)` (int minus timedelta) raises first.
Hence comparing any two `Packet`s raises `TypeError` instead of computing
the claimed predicate. -/
theorem claim_C1 : ∀ p q : Packet, packetEq p q = Except.error PyErr.typeError := by
  intro p q
  unfold packetEq
  cases h : tryParseDateTimeStr p.time with
  | int n =>
    simp [pySubMicros, Bind.bind, Except.bind]
  | datetime us =>
    simp [pySubMicros, pyAddMicros, pyLe, tryParseDateTimePacketArg, Bind.bind, Except.bind]

/-- Claim C2: every packet record stored by `createPacketAndSave` satisfies
`payloadSize + extraHeaderSize type = packetSize` exactly, and
`extraHeaderSize` is the base header size 6 plus 2 when `isDataPacket`
(HELLO bit unset) plus 3 when `isControlPacket` (neither HELLO nor DATA bit
set), with both increments applying simultaneously for a type with neither
bit set. -/
theorem claim_C2 :
    (∀ fileName address line lineNum p,
        (createPacketAndSave fileName address line lineNum).stored = some p →
        p.payloadSize + extraHeaderSize p.type = p.packetSize) ∧
    (∀ type : Int, extraHeaderSize type =
        headerPacketSize + (if isDataPacket type then dataPacketSize else 0) +
          (if isControlPacket type then dataControlPacketSize else 0)) ∧
    (∀ type : Int, isDataPacket type = true → isControlPacket type = true →
        extraHeaderSize type = headerPacketSize + dataPacketSize + dataControlPacketSize) := by
  refine ⟨?_, ?_, ?_⟩
  · intro f a l n p h
    simp only [createPacketAndSave] at h
    split at h
    · simp at h
    · simp only [Option.some.injEq] at h
      subst h
      simp only []
      omega
  · intro t
    unfold extraHeaderSize
    cases hd : isDataPacket t <;> cases hc : isControlPacket t <;>
      simp [hd, hc, headerPacketSize, dataPacketSize, dataControlPacketSize]
  · intro t hd hc
    unfold extraHeaderSize
    simp [hd, hc]

/-- Witness for claim C2 at the spec's scenario line. -/
theorem claim_C2_witness :
    (createPacketAndSave "m.txt" (some "0A") sendLineTokens 0).stored = some sendLinePacket ∧
    sendLinePacket.payloadSize + extraHeaderSize sendLinePacket.type = sendLinePacket.packetSize :=
  ⟨by decide, claim_C2.1 "m.txt" (some "0A") sendLineTokens 0 sendLinePacket (by decide)⟩

/-- Claim C3 counterexample: the claim expects `source = "0x0a"` and
`destination = "0x0b"`, but Python's `hex()` produces minimal-width
strings, so the stored values are `"0xa"` and `"0xb"`. -/
theorem claim_C3_counterexample :
    ((createPacketAndSave "m.txt" (some "0A") sendLineTokens 0).stored.map
        (fun p => p.source)) = some (some "0xa") ∧
    ((createPacketAndSave "m.txt" (some "0A") sendLineTokens 0).stored.map
        (fun p => p.source)) ≠ some (some "0x0a") := by
  exact ⟨by decide, by decide⟩

/-- Claim C3 (amended): parsing the scenario line yields a sent record with
type 2, totalSize 20, payloadSize 12, id 7 — but with the un-padded address
strings source = "0xa" and destination = "0xb" (Python `hex()` does not
zero-pad). -/
theorem claim_C3 :
    createPacketAndSave "m.txt" (some "0A") sendLineTokens 0 =
      { stored := some sendLinePacket, diag := none, returned := true } := by
  decide

/-- Claim C4: the receipt-window test of the correlation loop agrees on all
inputs with the spec's predicate `t - tolerance <= t_other OR t + tolerance
>= t_other` (both bounds inclusive, joined by OR — indeed both are
tautologies, the "wide band"), and differs from the two-sided AND window. -/
theorem claim_C4 :
    (∀ previousTime tOther : Int,
        receiptWithinWindow previousTime tOther = specOrWindow previousTime 100 tOther) ∧
    (∀ previousTime tOther : Int, receiptWithinWindow previousTime tOther = true) ∧
    (∃ t tOther : Int, receiptWithinWindow t tOther ≠ specAndWindow t 100 tOther) := by
  have hR : ∀ p t : Int, receiptWithinWindow p t = true := by
    intro p t
    simp only [receiptWithinWindow, Bool.or_eq_true, decide_eq_true_eq]
    omega
  have hO : ∀ p t : Int, specOrWindow p 100 t = true := by
    intro p t
    simp only [specOrWindow, Bool.or_eq_true, decide_eq_true_eq]
    omega
  exact ⟨fun p t => by rw [hR, hO], hR, ⟨0, 200, by decide⟩⟩

/-- Claim C5: the claim says a 23:59:58 → 00:00:02 transition gets a one-day
offset making the second adjusted timestamp later.  In the code the
hard-coded `> 21:25` cutoff skips every hour-23 sample (leaving `prevTime`
untouched), so on exactly this scenario `prevTime` still holds the initial
string when the hour-0 sample arrives and `prevTime.hour` raises
`AttributeError` — no adjusted timestamps are produced at all. -/
theorem claim_C5 :
    tryParseDate "23:59:58.000000" = some "23:59:58.000" ∧
    tryParseDate "00:00:02.000000" = some "00:00:02.000" ∧
    plotPacketSendQueueNode
        [{ id := 0, time := some "23:59:58.000", length := 5 },
         { id := 1, time := some "00:00:02.000", length := 3 }] =
      Except.error PyErr.attributeError := by
  exact ⟨by decide, by decide, rfl⟩

/-- Claim C6: the aggregator computes
`numAllPacketsRx = num_all_sent * (numberOfNodes - 1)`,
`lostPackets = numAllPacketsRx - num_all_received`, and
`totalLoss = (num_all_received / numAllPacketsRx - 1) * 100`; whenever the
maximum is positive and the received count does not exceed it, the reported
percentage is non-positive (the negative sign convention is preserved). -/
theorem claim_C6 : ∀ nodes : List NodeState,
    (printGeneralInfo nodes).numAllPacketsRx =
        ((nodes.flatMap (fun n => n.txPackets)).length : Int) *
          ((nodes.length : Int) - 1) ∧
    (printGeneralInfo nodes).lostPackets =
        (printGeneralInfo nodes).numAllPacketsRx -
          ((printGeneralInfo nodes).num_all_received : Int) ∧
    (printGeneralInfo nodes).totalLoss =
        (((printGeneralInfo nodes).num_all_received : Rat) /
            ((printGeneralInfo nodes).numAllPacketsRx : Rat) - 1) * 100 ∧
    (0 < (printGeneralInfo nodes).numAllPacketsRx →
      ((printGeneralInfo nodes).num_all_received : Int) ≤
          (printGeneralInfo nodes).numAllPacketsRx →
      (printGeneralInfo nodes).totalLoss ≤ 0) := by
  intro nodes
  refine ⟨rfl, rfl, rfl, ?_⟩
  intro hpos hle
  have hm : (0 : Rat) < (((printGeneralInfo nodes).numAllPacketsRx : Int) : Rat) := by
    exact_mod_cast hpos
  have hr : (((printGeneralInfo nodes).num_all_received : Nat) : Rat) ≤
      (((printGeneralInfo nodes).numAllPacketsRx : Int) : Rat) := by
    exact_mod_cast hle
  have hdiv : (((printGeneralInfo nodes).num_all_received : Nat) : Rat) /
      (((printGeneralInfo nodes).numAllPacketsRx : Int) : Rat) ≤ 1 :=
    (div_le_one hm).mpr hr
  have hgoal : ((((printGeneralInfo nodes).num_all_received : Nat) : Rat) /
      (((printGeneralInfo nodes).numAllPacketsRx : Int) : Rat) - 1) * 100 ≤ 0 := by
    nlinarith
  exact hgoal

/-- Witness for claim C6 on a 3-node trace with one sent and zero received
packets: the maximum is 2 > 0 and the loss percentage is non-positive. -/
theorem claim_C6_witness :
    0 < (printGeneralInfo [nodeWithOneTx, initialNodeState, initialNodeState]).numAllPacketsRx ∧
    ((printGeneralInfo [nodeWithOneTx, initialNodeState, initialNodeState]).num_all_received : Int) ≤
        (printGeneralInfo [nodeWithOneTx, initialNodeState, initialNodeState]).numAllPacketsRx ∧
    (printGeneralInfo [nodeWithOneTx, initialNodeState, initialNodeState]).totalLoss ≤ 0 :=
  ⟨by decide, by decide,
    (claim_C6 [nodeWithOneTx, initialNodeState, initialNodeState]).2.2.2 (by decide) (by decide)⟩

/-- When the date or the type is the NULL sentinel, `createPacketAndSave`
drops the record and emits the `printError` diagnostic. -/
theorem createPacketAndSave_drop (fileName : String) (address : Option String)
    (line : List String) (lineNum : Nat)
    (h : tryParseDate (line.headD "") = none ∨ findType line = NULL) :
    createPacketAndSave fileName address line lineNum =
      { stored := none, diag := some (fileName, lineNum), returned := false } := by
  simp only [createPacketAndSave]
  rw [if_pos h]

/-- Claim C7: a packet line whose timestamp or `Type:` field fails to parse
is dropped (no packet appended anywhere), produces exactly the diagnostic
`(fileName, lineNum)`, and leaves the state otherwise unchanged — and the
line loop of `getPackets` simply continues with the next line from that
state, so no fault interrupts ingestion. -/
theorem claim_C7 :
    (∀ fileName address st index line,
        pyInStr "Receiving LoRa packet" line = false →
        pyInStr "> Packet " line = true →
        pyInStr "> E:" line = false →
        pyInStr "Size of Send Packets Queue:" line = false →
        (tryParseDate ((pySplit line).headD "") = none ∨
          (getNextValue (pySplit line) "Type:").bind (fun v => pyIntOfString v 2) = none) →
        processLine fileName address st index line =
          { st with diagnostics := st.diagnostics ++ [(fileName, index)] }) ∧
    (∀ fileName address st index line rest,
        getPacketsAux fileName address st index (line :: rest) =
          getPacketsAux fileName address (processLine fileName address st index line)
            (index + 1) rest) := by
  constructor
  · intro f a st i line hrecv hpkt herr hq hbad
    have htype : tryParseDate ((pySplit line).headD "") = none ∨
        findType (pySplit line) = NULL := by
      rcases hbad with h | h
      · exact Or.inl h
      · right
        unfold findType
        cases hg : getNextValue (pySplit line) "Type:" with
        | none => rfl
        | some v =>
          rw [hg] at h
          have h₂ : pyIntOfString v 2 = none := h
          show (pyIntOfString v 2).getD NULL = NULL
          rw [h₂]
          rfl
    have hdrop := createPacketAndSave_drop f a (pySplit line) i htype
    simp only [processLine, hrecv, hpkt, herr, hq, Bool.false_eq_true, if_false, if_true,
      createPacketAndSaveS, hdrop]
  · intro f a st i line rest
    rfl

/-- Witness for claim C7: a packet line with no `Type:` field. -/
theorem claim_C7_witness :
    processLine "m.txt" (some "0A") initialNodeState 4 "12:00:00.000000 > Packet send Size: 20" =
      { initialNodeState with
          diagnostics := initialNodeState.diagnostics ++ [("m.txt", 4)] } :=
  claim_C7.1 "m.txt" (some "0A") initialNodeState 4 "12:00:00.000000 > Packet send Size: 20"
    (by decide) (by decide) (by decide) (by decide) (Or.inr (by decide))

/-- Claim C8 counterexample: on a queue line whose timestamp and queue
length both fail to parse, the claim says no queue sample is stored; in
fact `addPacketQueue` has no early return, so the diagnostic is emitted AND
a sample (with sentinel fields) is still appended. -/
theorem claim_C8_counterexample :
    (addPacketQueue "m.txt" initialNodeState badQueueTokens 0 3).packetQueueLength ≠ [] ∧
    (addPacketQueue "m.txt" initialNodeState badQueueTokens 0 3).diagnostics =
      [("m.txt", 3)] := by
  exact ⟨by decide, by decide⟩

/-- Claim C8 (amended): for every queue-length line whose timestamp or
queue-length field is the NULL sentinel, the ingestor emits a diagnostic
identifying the file and the line number, but still appends a queue sample
carrying the sentinel values of the unparsed fields. -/
theorem claim_C8 : ∀ fileName st line packetQueueOrder lineNum,
    (tryParseDate (line.headD "") = none ∨ getNextNum line = NULL) →
    addPacketQueue fileName st line packetQueueOrder lineNum =
      { st with
          diagnostics := st.diagnostics ++ [(fileName, lineNum)],
          packetQueueLength := st.packetQueueLength ++
            [{ id := packetQueueOrder, time := tryParseDate (line.headD ""),
               length := getNextNum line }] } := by
  intro f st line order lineNum h
  simp only [addPacketQueue]
  rw [if_pos h]

/-- Witness for claim C8 at the malformed queue line. -/
theorem claim_C8_witness :
    addPacketQueue "m.txt" initialNodeState badQueueTokens 0 3 =
      { initialNodeState with
          diagnostics := initialNodeState.diagnostics ++ [("m.txt", 3)],
          packetQueueLength := initialNodeState.packetQueueLength ++
            [{ id := 0, time := tryParseDate (badQueueTokens.headD ""),
               length := getNextNum badQueueTokens }] } :=
  claim_C8 "m.txt" initialNodeState badQueueTokens 0 3 (Or.inl (by decide))

/-- Membership in the pair list scanned by `identifySamePacketAndSetSameId`:
since the elements are dict snapshots compared by dict equality, a pair is
matched exactly when its components are equal records and occur in the
list. -/
theorem mem_matchedPairs (l : List Packet) (p q : Packet) :
    (p, q) ∈ matchedPairs l ↔ p = q ∧ p ∈ l := by
  induction l with
  | nil => simp [matchedPairs]
  | cons a rest ih =>
    simp only [matchedPairs, List.mem_append, List.mem_map, List.mem_filter, ih,
      beq_iff_eq, List.mem_cons, Prod.mk.injEq]
    constructor
    · rintro (⟨q', ⟨hmem, hq'⟩, hpq', hqq'⟩ | ⟨hpq, hp⟩)
      · subst hq'
        subst hpq'
        subst hqq'
        exact ⟨rfl, Or.inl rfl⟩
      · exact ⟨hpq, Or.inr hp⟩
    · rintro ⟨hpq, hp | hp⟩
      · subst hpq
        subst hp
        exact Or.inl ⟨p, ⟨Or.inl rfl, rfl⟩, rfl, rfl⟩
      · exact Or.inr ⟨hpq, hp⟩

/-- Claim C9: the matched-pair set of `identifySamePacketAndSetSameId` is
order-independent — permuting the input list leaves membership of every
(unordered) matched pair unchanged. -/
theorem claim_C9 : ∀ l₁ l₂ : List Packet, l₁.Perm l₂ → ∀ p q : Packet,
    ((p, q) ∈ matchedPairs l₁ ∨ (q, p) ∈ matchedPairs l₁) ↔
      ((p, q) ∈ matchedPairs l₂ ∨ (q, p) ∈ matchedPairs l₂) := by
  intro l₁ l₂ hperm p q
  simp only [mem_matchedPairs, hperm.mem_iff]

/-- Witness for claim C9 on a concrete two-element permutation. -/
theorem claim_C9_witness :
    ((sendLinePacket, sendLinePacket) ∈ matchedPairs [sendLinePacket, pktB] ∨
        (sendLinePacket, sendLinePacket) ∈ matchedPairs [sendLinePacket, pktB]) ↔
      ((sendLinePacket, sendLinePacket) ∈ matchedPairs [pktB, sendLinePacket] ∨
        (sendLinePacket, sendLinePacket) ∈ matchedPairs [pktB, sendLinePacket]) :=
  claim_C9 [sendLinePacket, pktB] [pktB, sendLinePacket]
    (List.Perm.swap pktB sendLinePacket []) sendLinePacket sendLinePacket

/-- Claim C10: since the sentinel NULL equals 0, the mandatory-field check
`NULL in (date, typeP)` cannot tell a parsed all-zero type bitmask from a
parse failure: no stored packet ever has type 0, and a line whose type
parses to 0 produces exactly the same drop-with-diagnostic outcome as the
same line with the `Type:` field missing. -/
theorem claim_C10 :
    (∀ fileName address line lineNum p,
        (createPacketAndSave fileName address line lineNum).stored = some p →
        p.type ≠ NULL) ∧
    createPacketAndSave "m.txt" (some "0A") zeroTypeTokens 0 =
      createPacketAndSave "m.txt" (some "0A") missingTypeTokens 0 ∧
    (createPacketAndSave "m.txt" (some "0A") zeroTypeTokens 0).stored = none ∧
    (createPacketAndSave "m.txt" (some "0A") zeroTypeTokens 0).diag = some ("m.txt", 0) := by
  refine ⟨?_, by decide, by decide, by decide⟩
  intro f a l n p h
  simp only [createPacketAndSave] at h
  split at h
  · simp at h
  · next hcond =>
    simp only [Option.some.injEq] at h
    subst h
    simp only []
    intro hz
    exact hcond (Or.inr hz)

/-- Witness for claim C10: the stored packet of the scenario line has a
non-zero type. -/
theorem claim_C10_witness :
    (createPacketAndSave "m.txt" (some "0A") sendLineTokens 0).stored = some sendLinePacket ∧
    sendLinePacket.type ≠ NULL :=
  ⟨by decide, claim_C10.1 "m.txt" (some "0A") sendLineTokens 0 sendLinePacket (by decide)⟩
